import Mathlib

/-!
Verification of the CeleparFlux macro recorder/player against its source.

The development shallowly embeds the parts of the repository that the
claims touch:

* `src/gptpar/domain/models.py` — `MacroStep` and `Macro` with their
  `to_dict` / `from_dict` serializers.
* `src/gptpar/infrastructure/storage/json_macro_repository.py` — the
  JSON-file store, modelled as a `FileData` value (a decoded entry list,
  or undecodable text) with `save` / `get` / `list_all` / `delete`.
* `src/gptpar/usecases/*.py` — the thin orchestration operations.
* `src/gptpar/infrastructure/browser/selenium_player.py` — `play` and
  `_apply_input`, modelled as pure functions from an environment that
  fixes the outcome of each browser-driver call to a result together
  with the trace of driver operations performed.
* `src/gptpar/infrastructure/browser/selenium_recorder.py` — the
  recorder state machine (`start` / `stop`) and the injected
  JavaScript `cssPath` selector generator.

Python `Any`-typed JSON data is modelled by the inductive `JVal`;
Python `datetime` values are identified with the integers: ISO-8601
serialization (`datetime.isoformat` / `datetime.fromisoformat`) is a
lossless bijection between datetimes and their canonical strings, so a
serialized timestamp is represented by the timestamp itself and the
`datetime` order is the integer order.
-/

/-- JSON-style values: the model of Python dict/list/str/num/bool/None
data reachable through the `Any`-typed `metadata` fields. -/
inductive JVal where
  | null
  | jbool (b : Bool)
  | jstr (s : String)
  | jnum (n : Int)
  | jarr (elems : List JVal)
  | jobj (fields : List (String × JVal))

/-- Python truthiness (`bool(v)`) on `JVal` data: `None`, `False`, `0`,
empty strings and empty containers are falsy. -/
def JVal.truthy : JVal → Bool
  | .null => false
  | .jbool b => b
  | .jstr s => !s.isEmpty
  | .jnum n => n != 0
  | .jarr elems => !elems.isEmpty
  | .jobj fields => !fields.isEmpty

/-- Python `d.get(key, default)` on a `JVal`: field lookup when the value
is an object, the default otherwise.  (In the modelled control flows the
receiver is always a dict, so the non-object branch is never the model
of a Python `AttributeError`.) -/
def JVal.getD (v : JVal) (key : String) (dflt : JVal) : JVal :=
  match v with
  | .jobj fields => (fields.lookup key).getD dflt
  | _ => dflt

/-- Python `(v or "")` applied to a JSON value that is a string or `None`
in every modelled flow: the string when it is one, `""` otherwise. -/
def pyStrOrEmpty : JVal → String
  | .jstr s => s
  | _ => ""

/-- ASCII lowercasing, the model of Python `str.lower` and JavaScript
`toLowerCase` on the tag and type names that occur here (written over
the character list so that it evaluates by kernel reduction). -/
def pyLower (s : String) : String := .mk (s.data.map Char.toLower)

/-- MacroStep from `domain/models.py`: one recorded interaction. -/
structure MacroStep where
  action : String
  selector : Option String
  value : Option String := none
  metadata : JVal := .jobj []

/-- The dictionary `MacroStep.to_dict` produces (and `from_dict` reads):
the same four fields, serialized shallowly. -/
structure StepDict where
  action : String
  selector : Option String
  value : Option String
  metadata : JVal

/-- MacroStep.to_dict from `domain/models.py`. -/
def MacroStep.to_dict (s : MacroStep) : StepDict :=
  ⟨s.action, s.selector, s.value, s.metadata⟩

/-- MacroStep.from_dict from `domain/models.py`. -/
def MacroStep.from_dict (d : StepDict) : MacroStep :=
  ⟨d.action, d.selector, d.value, d.metadata⟩

/-- Macro from `domain/models.py`: the recorded-at datetime is
represented by an integer (see the file comment). -/
structure Macro where
  name : String
  start_url : String
  recorded_at : Int
  steps : List MacroStep := []
  metadata : JVal := .jobj []

/-- The dictionary `Macro.to_dict` produces: `recorded_at` holds the
ISO-8601 serialization of the datetime, represented by the datetime
value it encodes (`fromisoformat` inverts `isoformat` exactly). -/
structure MacroDict where
  name : String
  start_url : String
  recorded_at : Int
  steps : List StepDict
  metadata : JVal

/-- Macro.to_dict from `domain/models.py`. -/
def Macro.to_dict (m : Macro) : MacroDict :=
  ⟨m.name, m.start_url, m.recorded_at, m.steps.map MacroStep.to_dict, m.metadata⟩

/-- Macro.from_dict from `domain/models.py`. -/
def Macro.from_dict (d : MacroDict) : Macro :=
  ⟨d.name, d.start_url, d.recorded_at, d.steps.map MacroStep.from_dict, d.metadata⟩

/-- Contents of the repository's storage file, as `_read_all` sees them:
either a decoded JSON array of macro dictionaries (what `_write_all`
produces), or text that `json.load` rejects with `JSONDecodeError`. -/
inductive FileData where
  | valid (entries : List MacroDict)
  | invalid

namespace JsonMacroRepository

/-- JsonMacroRepository._read_all: decode the file; a `JSONDecodeError`
is caught and the empty list returned. -/
def read_all : FileData → List MacroDict
  | .valid entries => entries
  | .invalid => []

/-- The entry-list transformation performed by `save`: replace the first
entry bearing the macro's name, or append when there is none. -/
def save_entries (data : List MacroDict) (m : Macro) : List MacroDict :=
  match data.findIdx? (fun item => item.name == m.name) with
  | some existing_index => data.set existing_index m.to_dict
  | none => data ++ [m.to_dict]

/-- JsonMacroRepository.save: read all entries, upsert by name, write the
resulting list back (the file afterwards holds valid JSON). -/
def save (fd : FileData) (m : Macro) : FileData :=
  .valid (save_entries (read_all fd) m)

/-- JsonMacroRepository.get: the first entry with the given name,
deserialized; `None` when there is none. -/
def get (fd : FileData) (name : String) : Option Macro :=
  ((read_all fd).find? (fun item => item.name == name)).map Macro.from_dict

/-- JsonMacroRepository.list_all: every stored entry, deserialized. -/
def list_all (fd : FileData) : List Macro :=
  (read_all fd).map Macro.from_dict

/-- JsonMacroRepository.delete: keep the entries whose name differs and
write them back; no error is raised when the name is absent. -/
def delete (fd : FileData) (name : String) : FileData :=
  .valid ((read_all fd).filter (fun item => !(item.name == name)))

end JsonMacroRepository

/-- Errors raised by the modelled operations: the `ValueError` of
`PlayMacro.execute`, the two `RuntimeError`s the player raises from a
`TimeoutException` or a `WebDriverException`, a raw `WebDriverException`
that propagates untranslated, the recorder's two state-conflict
`RuntimeError`s, and the re-raised `JavascriptException` of script
injection. -/
inductive AppError where
  | notFound (name : String)
  | timeoutLocating (selector : String) (action : String)
  | driverFailure (action : String) (selector : String)
  | webDriverFailure
  | alreadyRunning
  | notActive
  | scriptInjectionFailed
deriving DecidableEq

/-- The relation `ListMacros.execute` sorts by: its Python key function
is `macro.recorded_at` with `reverse=True`, so earlier elements have the
later (greater-or-equal) timestamp. -/
def byRecordedDesc (a b : Macro) : Prop := b.recorded_at ≤ a.recorded_at

instance : DecidableRel byRecordedDesc := fun _ _ => Int.decLe _ _

instance : IsTotal Macro byRecordedDesc :=
  ⟨fun a b => le_total b.recorded_at a.recorded_at⟩

instance : IsTrans Macro byRecordedDesc :=
  ⟨fun _ _ _ h1 h2 => le_trans h2 h1⟩

namespace ListMacros

/-- ListMacros.execute from `usecases/list_macros.py`: load every stored
macro and sort by recording time, most recent first.  Python `list.sort`
is a stable comparison sort; `insertionSort` is the stable sort of the
library, and on the distinct keys the claims consider every correct
sort agrees. -/
def execute (fd : FileData) : List Macro :=
  List.insertionSort byRecordedDesc (JsonMacroRepository.list_all fd)

end ListMacros

namespace DeleteMacro

/-- DeleteMacro.execute from `usecases/delete_macro.py`: delegate to the
repository. -/
def execute (fd : FileData) (macroName : String) : FileData :=
  JsonMacroRepository.delete fd macroName

end DeleteMacro

/-! ### The recorder (selenium_recorder.py)

The recorder's mutable fields (`_recording`, `_driver`, `_events`,
`_start_url`) form `RecorderState`; the driver itself is external, so
only its presence is recorded.  Driver calls are external effects: the
environment structures fix what each call returns, and each operation
yields its successor state, its result (`Except` for a raised error)
and the list of driver-level effects it performed. -/

/-- Driver-level effects of recorder operations, used to state that an
operation had no side effects. -/
inductive RecEvent where
  | createDriver
  | navigate (url : String)
  | injectScript
  | startPolling
  | finalFetch
  | fetchTitle
  | quitDriver
deriving DecidableEq

/-- Mutable state of `SeleniumMacroRecorder`: `hasDriver` is whether
`_driver` is not `None`. -/
structure RecorderState where
  recording : Bool
  hasDriver : Bool
  events : List MacroStep
  start_url : String

/-- Result of `recorder.stop()` (`RecordingResult` in
`domain/services.py`). -/
structure RecordingResult where
  start_url : String
  steps : List MacroStep
  metadata : JVal

/-- Environment of a `start` call: the URL the browser reports after
navigation (`driver.current_url`, post-redirect) and whether the capture
script injection raises `JavascriptException`. -/
structure StartEnv where
  currentUrl : String
  injectFails : Bool

/-- Environment of a `stop` call: the events drained by the final
`_fetch_events` (already converted to steps), the page title fetched by
`_safe_execute` (`none` models a swallowed `JavascriptException`), and
whether `driver.quit()` raises (caught and logged either way). -/
structure StopEnv where
  finalEvents : List MacroStep
  title : Option String
  quitFails : Bool

namespace SeleniumMacroRecorder

/-- Recorder state as `__init__` leaves it. -/
def initial : RecorderState := ⟨false, false, [], ""⟩

/-- SeleniumMacroRecorder.start: raise when a session is already
running (before any driver call); otherwise create the driver, navigate,
remember `current_url`, reset the event list, inject the capture script
(failure is fatal to the call) and launch the polling thread. -/
def start (st : RecorderState) (url : String) (env : StartEnv) :
    RecorderState × Except AppError Unit × List RecEvent :=
  if st.recording then
    (st, .error .alreadyRunning, [])
  else if env.injectFails then
    ({ recording := false, hasDriver := true, events := [],
       start_url := env.currentUrl },
     .error .scriptInjectionFailed,
     [.createDriver, .navigate url, .injectScript])
  else
    ({ recording := true, hasDriver := true, events := [],
       start_url := env.currentUrl },
     .ok (),
     [.createDriver, .navigate url, .injectScript, .startPolling])

/-- SeleniumMacroRecorder.stop: raise when no session is active
(`not self._recording or self._driver is None`); otherwise clear the
recording flag, drain the remaining events, fetch the title, quit the
driver (a `WebDriverException` there is logged, not raised) and return
the recording. -/
def stop (st : RecorderState) (env : StopEnv) :
    RecorderState × Except AppError RecordingResult × List RecEvent :=
  if !st.recording || !st.hasDriver then
    (st, .error .notActive, [])
  else
    let allEvents := st.events ++ env.finalEvents
    let titleVal : JVal := match env.title with
      | some t => .jstr t
      | none => .null
    (⟨false, false, allEvents, st.start_url⟩,
     .ok ⟨st.start_url, allEvents, .jobj [("title", titleVal)]⟩,
     [.finalFetch, .fetchTitle, .quitDriver])

end SeleniumMacroRecorder

namespace StartMacroRecording

/-- StartMacroRecording.execute from `usecases/start_recording.py`:
delegate to the recorder. -/
def execute (st : RecorderState) (url : String) (env : StartEnv) :
    RecorderState × Except AppError Unit × List RecEvent :=
  SeleniumMacroRecorder.start st url env

end StartMacroRecording

namespace StopMacroRecording

/-- StopMacroRecording.execute from `usecases/stop_recording.py`: stop
the recorder (an error propagates and nothing is saved), wrap the result
into a `Macro` stamped with the current UTC time, persist it and return
it.  The triple is the recorder state, the storage contents and the
call's result. -/
def execute (st : RecorderState) (env : StopEnv) (fd : FileData)
    (macroName : String) (now : Int) :
    RecorderState × FileData × Except AppError Macro :=
  match SeleniumMacroRecorder.stop st env with
  | (st2, .ok result, _) =>
      let m : Macro :=
        ⟨macroName, result.start_url, now, result.steps, result.metadata⟩
      (st2, JsonMacroRepository.save fd m, .ok m)
  | (st2, .error e, _) => (st2, fd, .error e)

end StopMacroRecording

/-! ### The player (selenium_player.py)

`play` drives a fresh driver.  The environment fixes whether the initial
navigation raises, and for each element wait (numbered in the order the
waits occur) whether the wait times out, the subsequent action raises a
`WebDriverException`, or the element is found in a given state and the
action succeeds.  The returned trace lists the driver operations
performed, so "the session is closed" is `quitDriver` in the trace. -/

/-- Driver and element operations the player performs. -/
inductive PlayerEvent where
  | createDriver
  | navigate (url : String)
  | waitClickable (selector : String)
  | waitPresence (selector : String)
  | scrollIntoView (selector : String)
  | clickElement (selector : String)
  | selectByValue (selector : String) (value : Option String)
  | clearElement (selector : String)
  | sendKey (selector : String) (c : Char)
  | quitDriver
deriving DecidableEq

/-- State of a located element, as the player can observe it:
`element.is_selected()`. -/
structure ElementState where
  selected : Bool

/-- Outcome of one replayed step's browser interaction: the wait raises
`TimeoutException`; or the action raises `WebDriverException`; or the
element is found in the given state and the action succeeds. -/
inductive StepOutcome where
  | timeout
  | driverError
  | ok (el : ElementState)

/-- Environment of a `play` call. `quitFails` is whether the teardown
`driver.quit()` raises `WebDriverException`; the result of `play` must
not depend on it (the exception is caught and logged). -/
structure PlayEnv where
  navFails : Bool
  outcomes : Nat → StepOutcome
  quitFails : Bool

namespace SeleniumMacroPlayer

/-- SeleniumMacroPlayer._apply_input: dispatch on the captured target
metadata.  A `select` tag sets the option by value (failures are logged,
not raised); a checkbox/radio target is clicked exactly when its current
checked state differs from the captured one; otherwise the field is
cleared (a `WebDriverException` from `clear` is logged and typing
continues) and the value, when truthy, is sent key by key. -/
def apply_input (el : ElementState) (step : MacroStep) (sel : String) :
    List PlayerEvent :=
  let target_info := (step.metadata).getD "target" (.jobj [])
  let tag := pyLower (pyStrOrEmpty (target_info.getD "tag" .null))
  let input_type := pyLower (pyStrOrEmpty (target_info.getD "inputType" .null))
  if tag == "select" then
    [.selectByValue sel step.value]
  else if input_type == "checkbox" || input_type == "radio" then
    let target_checked := (target_info.getD "checked" .null).truthy
    if target_checked != el.selected then [.clickElement sel] else []
  else
    .clearElement sel ::
      (match step.value with
       | some v => v.toList.map (fun c => .sendKey sel c)
       | none => [])

/-- The replay loop of `play`: steps without a selector are skipped,
`click` waits for clickability, `input`/`change` wait for presence, any
other action is logged and ignored.  `k` numbers the waits performed so
far; a timeout or driver failure aborts the loop with the corresponding
`RuntimeError` (the remaining steps are not executed). -/
def playSteps (env : PlayEnv) : Nat → List MacroStep →
    Except AppError Unit × List PlayerEvent
  | _, [] => (.ok (), [])
  | k, step :: rest =>
    match step.selector with
    | none => playSteps env k rest
    | some sel =>
      if sel.isEmpty then
        playSteps env k rest
      else if step.action == "click" then
        match env.outcomes k with
        | .timeout =>
            (.error (.timeoutLocating sel step.action), [.waitClickable sel])
        | .driverError =>
            (.error (.driverFailure step.action sel),
             [.waitClickable sel, .scrollIntoView sel])
        | .ok _ =>
            let tail := playSteps env (k + 1) rest
            (tail.1,
             .waitClickable sel :: .scrollIntoView sel :: .clickElement sel ::
               tail.2)
      else if step.action == "input" || step.action == "change" then
        match env.outcomes k with
        | .timeout =>
            (.error (.timeoutLocating sel step.action), [.waitPresence sel])
        | .driverError =>
            (.error (.driverFailure step.action sel),
             [.waitPresence sel, .scrollIntoView sel])
        | .ok el =>
            let tail := playSteps env (k + 1) rest
            (tail.1,
             .waitPresence sel :: .scrollIntoView sel ::
               (apply_input el step sel ++ tail.2))
      else
        playSteps env k rest

/-- SeleniumMacroPlayer.play: create the driver and navigate to
`start_url` — both before the `try` block, so a navigation failure
propagates with no teardown — then replay the steps inside
`try ... finally: driver.quit()`; a `WebDriverException` raised by the
teardown itself is caught and logged, so the loop's result is returned
unchanged whatever `env.quitFails` is. -/
def play (env : PlayEnv) (steps : List MacroStep) (start_url : String) :
    Except AppError Unit × List PlayerEvent :=
  if env.navFails then
    (.error .webDriverFailure, [.createDriver, .navigate start_url])
  else
    let loop := playSteps env 0 steps
    (loop.1, .createDriver :: .navigate start_url :: (loop.2 ++ [.quitDriver]))

end SeleniumMacroPlayer

namespace PlayMacro

/-- PlayMacro.execute from `usecases/play_macro.py`: load the macro by
name, raise `ValueError` when absent (before the player runs, so the
trace is empty and the driver factory is never called), else play it. -/
def execute (fd : FileData) (env : PlayEnv) (macroName : String) :
    Except AppError Unit × List PlayerEvent :=
  match JsonMacroRepository.get fd macroName with
  | none => (.error (.notFound macroName), [])
  | some m => SeleniumMacroPlayer.play env m.steps m.start_url

end PlayMacro

/-! ### Selector generation (the injected `cssPath` of selenium_recorder.py)

The JavaScript walks `el.parentElement` upward while the node is an
element, and for each level walks the `previousElementSibling` chain.
A DOM position is therefore modelled as the chain from the event target
up to the document element: one entry per ancestor-or-self, holding the
element and the list of its preceding element siblings. -/

/-- An element as `cssPath` observes it: `nodeName` (any case; the code
lowercases it) and `id`, where the empty string models a falsy `el.id`. -/
structure DomElem where
  tag : String
  id : String

/-- The target's ancestor chain, target first, document element last;
each element is paired with its preceding element siblings. -/
abbrev AncestorChain := List (DomElem × List DomElem)

/-- Model of the browser builtin `CSS.escape`, which the code applies to
ids.  On the identifier-like ids considered here it is the identity, and
the claims quantify over it only through this function. -/
def cssEscape (s : String) : String := s

/-- One plus the number of preceding siblings whose lowercased
`nodeName` equals the element's lowercased `nodeName` — the `nth`
counter of the JavaScript loop. -/
def nthOfType (e : DomElem) (sibs : List DomElem) : Nat :=
  1 + (sibs.filter (fun s => pyLower s.tag == pyLower e.tag)).length

/-- The selector segments `cssPath` pushes, ordered target-first (the
JavaScript `unshift`s them, producing the reverse order): an element
with an id contributes `tag#id` and the walk stops; otherwise the
`:nth-of-type(n)` suffix is appended only when `nth !== 1`, and the walk
continues to the parent. -/
def cssPathSegs : AncestorChain → List String
  | [] => []
  | (e, sibs) :: rest =>
    let selector := pyLower e.tag
    if e.id ≠ "" then
      [selector ++ "#" ++ cssEscape e.id]
    else
      let nth := nthOfType e sibs
      (if nth ≠ 1 then
        selector ++ ":nth-of-type(" ++ toString nth ++ ")"
      else selector) :: cssPathSegs rest

/-- The injected `cssPath`: the collected segments joined root-first
with " > ". -/
def cssPath (chain : AncestorChain) : String :=
  String.intercalate " > " (cssPathSegs chain).reverse

/-- Modelled from the claim's words, for comparison with `cssPathSegs`:
at each element, if the element has an id the segment is `tag#id` and
ascent stops; otherwise the segment is always `tag:nth-of-type(n)`
where n is one plus the count of preceding same-tag siblings. -/
def claimSegs : AncestorChain → List String
  | [] => []
  | (e, sibs) :: rest =>
    if e.id ≠ "" then
      [pyLower e.tag ++ "#" ++ cssEscape e.id]
    else
      (pyLower e.tag ++ ":nth-of-type(" ++ toString (nthOfType e sibs) ++ ")")
        :: claimSegs rest

/-- The claim's selector: segments joined root-first with " > ". -/
def claimCssPath (chain : AncestorChain) : String :=
  String.intercalate " > " (claimSegs chain).reverse

/-- Modelled from the claim as amended: as `claimSegs`, except that the
`:nth-of-type(n)` suffix is omitted when n = 1 (the segment is then the
bare tag). -/
def amendedSegs : AncestorChain → List String
  | [] => []
  | (e, sibs) :: rest =>
    if e.id ≠ "" then
      [pyLower e.tag ++ "#" ++ cssEscape e.id]
    else
      (if nthOfType e sibs = 1 then pyLower e.tag
       else pyLower e.tag ++ ":nth-of-type(" ++ toString (nthOfType e sibs) ++ ")")
        :: amendedSegs rest

/-- The amended claim's selector: segments joined root-first with
" > ". -/
def amendedCssPath (chain : AncestorChain) : String :=
  String.intercalate " > " (amendedSegs chain).reverse

/-! ## Serialization round-trip lemmas -/

/-- Deserializing a serialized step restores it. -/
theorem step_from_to_dict (s : MacroStep) : MacroStep.from_dict s.to_dict = s := rfl

/-- Deserializing a serialized step list restores it. -/
theorem steps_from_to (l : List MacroStep) :
    (l.map MacroStep.to_dict).map MacroStep.from_dict = l := by
  induction l with
  | nil => rfl
  | cons s t ih => simp [ih, step_from_to_dict]

/-- Deserializing a serialized macro restores it. -/
theorem macro_from_to_dict (m : Macro) : Macro.from_dict m.to_dict = m := by
  cases m with
  | mk n u r s md => simp only [Macro.from_dict, Macro.to_dict, steps_from_to]

/-! ## Behaviour of `save_entries` -/

/-- Unfolding of `save_entries` on a nonempty entry list: the head is
replaced when its name matches, otherwise the upsert recurses. -/
theorem save_entries_cons (d : MacroDict) (ds : List MacroDict) (m : Macro) :
    JsonMacroRepository.save_entries (d :: ds) m =
      if d.name == m.name then m.to_dict :: ds
      else d :: JsonMacroRepository.save_entries ds m := by
  unfold JsonMacroRepository.save_entries
  rw [List.findIdx?_cons]
  by_cases h : (d.name == m.name) = true
  · simp [h]
  · simp only [h, if_false, List.findIdx?_succ]
    cases hf : List.findIdx? (fun item => item.name == m.name) ds with
    | none => simp
    | some i => simp

/-- After a save, the first entry bearing the macro's name is its
serialization. -/
theorem find_save_entries (data : List MacroDict) (m : Macro) :
    (JsonMacroRepository.save_entries data m).find?
        (fun e => e.name == m.name) = some m.to_dict := by
  induction data with
  | nil => simp [JsonMacroRepository.save_entries, Macro.to_dict]
  | cons d ds ih =>
    rw [save_entries_cons]
    by_cases h : (d.name == m.name) = true
    · simp [h, Macro.to_dict]
    · simp [h, ih]

/-- Reading back a saved macro by its name yields the macro. -/
theorem get_save (fd : FileData) (m : Macro) :
    JsonMacroRepository.get (JsonMacroRepository.save fd m) m.name = some m := by
  unfold JsonMacroRepository.get JsonMacroRepository.save
  simp [JsonMacroRepository.read_all, find_save_entries, macro_from_to_dict]

/-- Saving over an existing name keeps the number of entries. -/
theorem length_save_entries (data : List MacroDict) (m : Macro)
    (h : data.any (fun e => e.name == m.name) = true) :
    (JsonMacroRepository.save_entries data m).length = data.length := by
  induction data with
  | nil => simp at h
  | cons d ds ih =>
    rw [save_entries_cons]
    by_cases hd : (d.name == m.name) = true
    · simp [hd]
    · rw [if_neg hd]
      simp only [List.any_cons, hd, Bool.false_or] at h
      simp only [List.length_cons]
      rw [ih h]

/-- A save leaves the entries bearing other names untouched. -/
theorem filter_save_entries (data : List MacroDict) (m : Macro) :
    (JsonMacroRepository.save_entries data m).filter
        (fun e => !(e.name == m.name)) =
      data.filter (fun e => !(e.name == m.name)) := by
  induction data with
  | nil => simp [JsonMacroRepository.save_entries, Macro.to_dict]
  | cons d ds ih =>
    rw [save_entries_cons]
    by_cases hd : (d.name == m.name) = true
    · simp [hd, List.filter_cons, Macro.to_dict]
    · simp [hd, List.filter_cons, ih]

/-! ## Claim theorems: storage -/

/-- C3: after `JsonMacroRepository.save(M)`, a subsequent `get(M.name)`
returns a macro whose name, start_url and steps (each step's action,
selector, value, in the same order) equal those of M. -/
theorem save_get_roundtrip (fd : FileData) (m : Macro) :
    ∃ m2, JsonMacroRepository.get (JsonMacroRepository.save fd m) m.name = some m2
      ∧ m2.name = m.name
      ∧ m2.start_url = m.start_url
      ∧ m2.steps.map (fun s => (s.action, s.selector, s.value))
          = m.steps.map (fun s => (s.action, s.selector, s.value)) :=
  ⟨m, get_save fd m, rfl, rfl, rfl⟩

/-- C6: saving a macro whose name is already stored replaces the entry in
place: `get` then returns the new data, the number of stored entries is
unchanged, and the entries bearing other names are unchanged. -/
theorem save_overwrites_existing (fd : FileData) (m : Macro)
    (h : (JsonMacroRepository.read_all fd).any (fun e => e.name == m.name) = true) :
    JsonMacroRepository.get (JsonMacroRepository.save fd m) m.name = some m
    ∧ (JsonMacroRepository.read_all (JsonMacroRepository.save fd m)).length
        = (JsonMacroRepository.read_all fd).length
    ∧ (JsonMacroRepository.read_all (JsonMacroRepository.save fd m)).filter
          (fun e => !(e.name == m.name))
        = (JsonMacroRepository.read_all fd).filter (fun e => !(e.name == m.name)) :=
  ⟨get_save fd m,
   by simpa [JsonMacroRepository.save, JsonMacroRepository.read_all]
        using length_save_entries (JsonMacroRepository.read_all fd) m h,
   by simpa [JsonMacroRepository.save, JsonMacroRepository.read_all]
        using filter_save_entries (JsonMacroRepository.read_all fd) m⟩

/-- Witness for C6 at a concrete store holding an entry named "demo". -/
theorem save_overwrites_existing_witness :
    (JsonMacroRepository.read_all
        (.valid [⟨"demo", "https://old.example", 0, [], .jobj []⟩])).any
      (fun e => e.name == (⟨"demo", "https://new.example", 5, [], .jobj []⟩ : Macro).name) = true
    ∧ (JsonMacroRepository.get
          (JsonMacroRepository.save
            (.valid [⟨"demo", "https://old.example", 0, [], .jobj []⟩])
            ⟨"demo", "https://new.example", 5, [], .jobj []⟩)
          (Macro.name ⟨"demo", "https://new.example", 5, [], .jobj []⟩)
        = some ⟨"demo", "https://new.example", 5, [], .jobj []⟩
      ∧ (JsonMacroRepository.read_all (JsonMacroRepository.save
            (.valid [⟨"demo", "https://old.example", 0, [], .jobj []⟩])
            ⟨"demo", "https://new.example", 5, [], .jobj []⟩)).length
          = (JsonMacroRepository.read_all
              (.valid [⟨"demo", "https://old.example", 0, [], .jobj []⟩])).length
      ∧ (JsonMacroRepository.read_all (JsonMacroRepository.save
            (.valid [⟨"demo", "https://old.example", 0, [], .jobj []⟩])
            ⟨"demo", "https://new.example", 5, [], .jobj []⟩)).filter
            (fun e => !(e.name == (⟨"demo", "https://new.example", 5, [], .jobj []⟩ : Macro).name))
          = (JsonMacroRepository.read_all
              (.valid [⟨"demo", "https://old.example", 0, [], .jobj []⟩])).filter
              (fun e => !(e.name == (⟨"demo", "https://new.example", 5, [], .jobj []⟩ : Macro).name))) :=
  ⟨by decide,
   save_overwrites_existing
     (.valid [⟨"demo", "https://old.example", 0, [], .jobj []⟩])
     ⟨"demo", "https://new.example", 5, [], .jobj []⟩ (by decide)⟩

/-- C8: `delete(name)` keeps exactly the entries with other names, never
raises, is idempotent, and deleting an absent name leaves the stored
collection unchanged. -/
theorem delete_noop_idempotent (fd : FileData) (nm : String) :
    JsonMacroRepository.read_all (JsonMacroRepository.delete fd nm)
        = (JsonMacroRepository.read_all fd).filter (fun e => !(e.name == nm))
    ∧ JsonMacroRepository.delete (JsonMacroRepository.delete fd nm) nm
        = JsonMacroRepository.delete fd nm
    ∧ ((JsonMacroRepository.read_all fd).all (fun e => !(e.name == nm)) = true →
        JsonMacroRepository.read_all (JsonMacroRepository.delete fd nm)
          = JsonMacroRepository.read_all fd) := by
  refine ⟨rfl, ?_, ?_⟩
  · simp [JsonMacroRepository.delete, JsonMacroRepository.read_all,
      List.filter_filter]
  · intro h
    simp only [JsonMacroRepository.delete, JsonMacroRepository.read_all]
    exact List.filter_eq_self.mpr (by simpa [List.all_eq_true] using h)

/-- Witness for C8: deleting the absent name "ghost" from a concrete
store is a no-op. -/
theorem delete_noop_idempotent_witness :
    (JsonMacroRepository.read_all
        (.valid [⟨"kept", "https://a.example", 1, [], .jobj []⟩])).all
      (fun e => !(e.name == "ghost")) = true
    ∧ JsonMacroRepository.read_all
        (JsonMacroRepository.delete
          (.valid [⟨"kept", "https://a.example", 1, [], .jobj []⟩]) "ghost")
        = JsonMacroRepository.read_all
            (.valid [⟨"kept", "https://a.example", 1, [], .jobj []⟩]) :=
  ⟨by decide,
   (delete_noop_idempotent
     (.valid [⟨"kept", "https://a.example", 1, [], .jobj []⟩]) "ghost").2.2
     (by decide)⟩

/-- C10: a storage file holding undecodable text reads as empty — `get`
returns the not-found marker for every name and `list_all` is empty —
and a subsequent save rewrites the file to exactly that one macro. -/
theorem invalid_file_reads_empty :
    ∀ (nm : String) (m : Macro),
      JsonMacroRepository.get .invalid nm = none
      ∧ JsonMacroRepository.list_all .invalid = []
      ∧ JsonMacroRepository.save .invalid m = .valid [m.to_dict] :=
  fun _ _ => ⟨rfl, rfl, rfl⟩

/-! ## Claim theorems: use cases -/

/-- C7: on a store whose macros have pairwise distinct recorded_at
timestamps, `ListMacros.execute` returns all of them (a permutation of
`list_all`) in strictly descending recorded_at order. -/
theorem list_macros_sorted_desc (fd : FileData)
    (h : (JsonMacroRepository.list_all fd).Pairwise
      (fun a b => a.recorded_at ≠ b.recorded_at)) :
    (ListMacros.execute fd).Perm (JsonMacroRepository.list_all fd)
    ∧ (ListMacros.execute fd).Pairwise
        (fun a b => b.recorded_at < a.recorded_at) := by
  have hperm : (ListMacros.execute fd).Perm (JsonMacroRepository.list_all fd) :=
    List.perm_insertionSort byRecordedDesc (JsonMacroRepository.list_all fd)
  refine ⟨hperm, ?_⟩
  have hsorted : (ListMacros.execute fd).Pairwise byRecordedDesc :=
    List.sorted_insertionSort byRecordedDesc (JsonMacroRepository.list_all fd)
  have hne : (ListMacros.execute fd).Pairwise
      (fun a b => a.recorded_at ≠ b.recorded_at) :=
    (List.Perm.pairwise_iff (fun hxy => hxy.symm) hperm).mpr h
  exact (hsorted.and hne).imp fun hab => lt_of_le_of_ne hab.1 hab.2.symm

/-- Witness for C7 at a concrete store with two distinct timestamps. -/
theorem list_macros_sorted_desc_witness :
    (JsonMacroRepository.list_all
        (.valid [⟨"a", "https://a.example", 1, [], .jobj []⟩,
                 ⟨"b", "https://b.example", 2, [], .jobj []⟩])).Pairwise
      (fun a b => a.recorded_at ≠ b.recorded_at)
    ∧ ((ListMacros.execute
          (.valid [⟨"a", "https://a.example", 1, [], .jobj []⟩,
                   ⟨"b", "https://b.example", 2, [], .jobj []⟩])).Perm
        (JsonMacroRepository.list_all
          (.valid [⟨"a", "https://a.example", 1, [], .jobj []⟩,
                   ⟨"b", "https://b.example", 2, [], .jobj []⟩]))
      ∧ (ListMacros.execute
          (.valid [⟨"a", "https://a.example", 1, [], .jobj []⟩,
                   ⟨"b", "https://b.example", 2, [], .jobj []⟩])).Pairwise
          (fun a b => b.recorded_at < a.recorded_at)) :=
  ⟨by decide,
   list_macros_sorted_desc
     (.valid [⟨"a", "https://a.example", 1, [], .jobj []⟩,
              ⟨"b", "https://b.example", 2, [], .jobj []⟩]) (by decide)⟩

/-- C4: stopping while idle fails with the state-conflict error and
persists nothing (the store and the recorder state are returned
unchanged); starting while already recording fails with the
state-conflict error with no side effects (no driver events, recorder
state unchanged). -/
theorem state_conflicts_rejected (st st2 : RecorderState) (env : StopEnv)
    (env2 : StartEnv) (fd : FileData) (nm url : String) (now : Int)
    (h1 : st.recording = false) (h2 : st2.recording = true) :
    StopMacroRecording.execute st env fd nm now = (st, fd, .error .notActive)
    ∧ StartMacroRecording.execute st2 url env2
        = (st2, .error .alreadyRunning, []) := by
  constructor
  · unfold StopMacroRecording.execute SeleniumMacroRecorder.stop
    simp [h1]
  · unfold StartMacroRecording.execute SeleniumMacroRecorder.start
    simp [h2]

/-- Witness for C4: stop on the freshly initialised recorder, start on a
recorder that is already recording. -/
theorem state_conflicts_rejected_witness :
    SeleniumMacroRecorder.initial.recording = false
    ∧ (⟨true, true, [], "https://x.example"⟩ : RecorderState).recording = true
    ∧ (StopMacroRecording.execute SeleniumMacroRecorder.initial
          ⟨[], none, false⟩ (.valid []) "demo" 7
        = (SeleniumMacroRecorder.initial, .valid [], .error .notActive)
      ∧ StartMacroRecording.execute
          (⟨true, true, [], "https://x.example"⟩ : RecorderState)
          "https://y.example" ⟨"https://y.example", false⟩
        = ((⟨true, true, [], "https://x.example"⟩ : RecorderState),
           .error .alreadyRunning, [])) :=
  ⟨rfl, rfl,
   state_conflicts_rejected SeleniumMacroRecorder.initial
     ⟨true, true, [], "https://x.example"⟩ ⟨[], none, false⟩
     ⟨"https://y.example", false⟩ (.valid []) "demo" "https://y.example" 7
     rfl rfl⟩

/-- C5: playing a name absent from storage fails with the not-found
error, and the empty trace shows the driver factory is never called and
no browser session is opened. -/
theorem play_unknown_rejected (fd : FileData) (env : PlayEnv) (nm : String)
    (h : JsonMacroRepository.get fd nm = none) :
    PlayMacro.execute fd env nm = (.error (.notFound nm), []) := by
  unfold PlayMacro.execute
  rw [h]

/-- Witness for C5 on the empty store. -/
theorem play_unknown_rejected_witness :
    JsonMacroRepository.get (.valid []) "demo" = none
    ∧ PlayMacro.execute (.valid [])
        ⟨false, fun _ => .timeout, false⟩ "demo"
        = (.error (.notFound "demo"), []) :=
  ⟨rfl,
   play_unknown_rejected (.valid []) ⟨false, fun _ => .timeout, false⟩
     "demo" rfl⟩

/-! ## Claim theorems: player and selector generation -/

/-- C9: replaying an input/change step whose captured target metadata
marks it as a checkbox or radio (and not as a select) clicks the element
if and only if the element's current checked state differs from the
captured target checked state; an already-matching element is left
untouched. -/
theorem checkbox_toggle_iff (el : ElementState) (step : MacroStep) (sel : String)
    (h1 : pyLower (pyStrOrEmpty
        ((step.metadata.getD "target" (.jobj [])).getD "tag" .null)) ≠ "select")
    (h2 : pyLower (pyStrOrEmpty
        ((step.metadata.getD "target" (.jobj [])).getD "inputType" .null)) = "checkbox"
      ∨ pyLower (pyStrOrEmpty
        ((step.metadata.getD "target" (.jobj [])).getD "inputType" .null)) = "radio") :
    SeleniumMacroPlayer.apply_input el step sel =
      (if ((step.metadata.getD "target" (.jobj [])).getD "checked" .null).truthy
          != el.selected
       then [.clickElement sel] else [])
    ∧ (PlayerEvent.clickElement sel ∈ SeleniumMacroPlayer.apply_input el step sel
        ↔ ((step.metadata.getD "target" (.jobj [])).getD "checked" .null).truthy
            ≠ el.selected) := by
  have htag : (pyLower (pyStrOrEmpty
      ((step.metadata.getD "target" (.jobj [])).getD "tag" .null)) == "select")
        = false :=
    beq_eq_false_iff_ne.mpr h1
  have htype : (pyLower (pyStrOrEmpty
        ((step.metadata.getD "target" (.jobj [])).getD "inputType" .null))
          == "checkbox"
      || pyLower (pyStrOrEmpty
        ((step.metadata.getD "target" (.jobj [])).getD "inputType" .null))
          == "radio") = true := by
    rcases h2 with h2 | h2 <;> simp [h2]
  have happ : SeleniumMacroPlayer.apply_input el step sel =
      (if ((step.metadata.getD "target" (.jobj [])).getD "checked" .null).truthy
          != el.selected
       then [.clickElement sel] else []) := by
    unfold SeleniumMacroPlayer.apply_input
    simp only [htag, htype, Bool.false_eq_true, if_false, if_true]
  refine ⟨happ, ?_⟩
  rw [happ]
  cases hbe : (((step.metadata.getD "target" (.jobj [])).getD "checked" .null).truthy
      != el.selected) with
  | true =>
      simp only [if_true, List.mem_singleton, true_iff]
      exact bne_iff_ne.mp hbe
  | false =>
      rw [bne_eq_false_iff_eq] at hbe
      simp [hbe]

/-- Witness for C9: a checkbox captured as checked, replayed against an
element that is currently unchecked, is clicked. -/
theorem checkbox_toggle_iff_witness :
    pyLower (pyStrOrEmpty ((((JVal.jobj [("target", JVal.jobj
        [("tag", JVal.jstr "input"), ("inputType", JVal.jstr "checkbox"),
         ("checked", JVal.jbool true)])]).getD "target" (.jobj [])).getD
        "tag" .null))) ≠ "select"
    ∧ pyLower (pyStrOrEmpty ((((JVal.jobj [("target", JVal.jobj
        [("tag", JVal.jstr "input"), ("inputType", JVal.jstr "checkbox"),
         ("checked", JVal.jbool true)])]).getD "target" (.jobj [])).getD
        "inputType" .null))) = "checkbox"
    ∧ (SeleniumMacroPlayer.apply_input ⟨false⟩
          ⟨"change", some "#agree", some "on", (JVal.jobj [("target", JVal.jobj
            [("tag", JVal.jstr "input"), ("inputType", JVal.jstr "checkbox"),
             ("checked", JVal.jbool true)])])⟩ "#agree"
        = (if (((JVal.jobj [("target", JVal.jobj
              [("tag", JVal.jstr "input"), ("inputType", JVal.jstr "checkbox"),
               ("checked", JVal.jbool true)])]).getD "target" (.jobj [])).getD
              "checked" .null).truthy
            != (⟨false⟩ : ElementState).selected
           then [.clickElement "#agree"] else [])
      ∧ (PlayerEvent.clickElement "#agree" ∈ SeleniumMacroPlayer.apply_input ⟨false⟩
            ⟨"change", some "#agree", some "on", (JVal.jobj [("target", JVal.jobj
              [("tag", JVal.jstr "input"), ("inputType", JVal.jstr "checkbox"),
               ("checked", JVal.jbool true)])])⟩ "#agree"
          ↔ (((JVal.jobj [("target", JVal.jobj
              [("tag", JVal.jstr "input"), ("inputType", JVal.jstr "checkbox"),
               ("checked", JVal.jbool true)])]).getD "target" (.jobj [])).getD
              "checked" .null).truthy
              ≠ (⟨false⟩ : ElementState).selected)) :=
  ⟨by decide, by decide,
   checkbox_toggle_iff ⟨false⟩
     ⟨"change", some "#agree", some "on", (JVal.jobj [("target", JVal.jobj
       [("tag", JVal.jstr "input"), ("inputType", JVal.jstr "checkbox"),
        ("checked", JVal.jbool true)])])⟩ "#agree"
     (by decide) (Or.inl (by decide))⟩

/-- C1 (violated by the code): `driver.get(start_url)` runs before the
`try` block of `play`, so when the initial navigation raises a
`WebDriverException` the error propagates without the `finally`
teardown ever running — the trace of this failing call holds no
`quitDriver`, and the created session leaks. -/
theorem play_nav_failure_leaks_session :
    SeleniumMacroPlayer.play ⟨true, fun _ => .timeout, false⟩
        [⟨"click", some "#submit", none, .jobj []⟩] "https://example.com"
      = (.error .webDriverFailure,
         [.createDriver, .navigate "https://example.com"])
    ∧ PlayerEvent.quitDriver ∉
        (SeleniumMacroPlayer.play ⟨true, fun _ => .timeout, false⟩
          [⟨"click", some "#submit", none, .jobj []⟩] "https://example.com").2 := by
  refine ⟨rfl, ?_⟩
  decide

/-- C2 (refuted as stated): for a target that is a div with no id and no
preceding siblings, the injected `cssPath` yields "div", not the
"div:nth-of-type(1)" the claim's always-suffixed policy produces. -/
theorem claim_css_path_refuted :
    cssPath [(⟨"DIV", ""⟩, [])] = "div"
    ∧ claimCssPath [(⟨"DIV", ""⟩, [])] = "div:nth-of-type(1)"
    ∧ cssPath [(⟨"DIV", ""⟩, [])] ≠ claimCssPath [(⟨"DIV", ""⟩, [])] := by
  refine ⟨by decide, by decide, by decide⟩

/-- C2 as amended: the generated selector walks up from the target, an
element with an id contributes `tag#id` and stops the ascent, an element
without one contributes `tag:nth-of-type(n)` — with the suffix omitted
when n = 1 — where n is one plus the count of preceding same-tag
siblings, and the segments are joined root-first with " > ". -/
theorem css_path_follows_amended_policy (chain : AncestorChain) :
    cssPath chain = amendedCssPath chain := by
  unfold cssPath amendedCssPath
  suffices h : cssPathSegs chain = amendedSegs chain by rw [h]
  induction chain with
  | nil => rfl
  | cons p rest ih =>
    obtain ⟨e, sibs⟩ := p
    simp only [cssPathSegs, amendedSegs]
    by_cases hid : e.id ≠ ""
    · simp [hid]
    · by_cases hn : nthOfType e sibs = 1
      · simp [hid, hn, ih]
      · simp [hid, hn, ih]
